import Mathlib

/-!
Verification of the barcode-decoder repository's specification.

Real arithmetic of the TypeScript source is embedded over `ℚ`; machine
floating point is idealised as exact rational arithmetic, so equalities
proved here are the "within floating-point tolerance" statements of the
specification in exact form.

The geometry utilities (`getVideoRenderSize`, `getVideoRenderOffset`,
`translateAreaToVideoSource`, `translateAreaToVideoRender`, `getScanArea`)
are translated directly from `src/lib/utils`.  The frame scheduler of
`src/lib/create-barcode-scanner.ts`, the decode channel of
`src/lib/create-worker.ts` and the worker of `src/lib/worker.ts` are
embedded as explicit state machines stepped by event lists.
-/

/-- A rectangular scan area `{x, y, width, height}` in pixels
(`get-scan-area.ts`). -/
@[ext]
structure ScanArea where
  x : ℚ
  y : ℚ
  width : ℚ
  height : ℚ
  deriving DecidableEq, Repr

/-- Rendered size of the video element (`get-video-render-size.ts`). -/
@[ext]
structure RenderSize where
  width : ℚ
  height : ℚ
  deriving DecidableEq, Repr

/-- Offset of the rendered video inside the element box
(`get-video-render-offset.ts`). -/
structure RenderOffset where
  x : ℚ
  y : ℚ
  deriving DecidableEq, Repr

/-- One component of the computed `object-position` style: either a
percentage (resolved against the leftover space) or an absolute pixel
length, as parsed in `get-video-render-offset.ts`. -/
inductive OPComponent where
  | percent (v : ℚ)
  | px (v : ℚ)
  deriving DecidableEq, Repr

/-- The observable fields of the `HTMLVideoElement` consumed by the
geometry utilities: native source size (`videoWidth`/`videoHeight`),
layout box (`offsetWidth`/`offsetHeight`), the computed `object-fit` and
`object-position` styles, and whether `style.transform` matches the
mirroring pattern `scaleX(-1)`. -/
structure VideoEl where
  videoWidth : ℚ
  videoHeight : ℚ
  offsetWidth : ℚ
  offsetHeight : ℚ
  objectFit : String
  objectPositionX : OPComponent
  objectPositionY : OPComponent
  isMirroredStyle : Bool
  deriving DecidableEq, Repr

/-- `getVideoRenderSize` from `get-video-render-size.ts`: the size at
which the source video is rendered inside the element box, per
`object-fit` policy.  The `default` branch of the `switch` returns the
source size. -/
def getVideoRenderSize (v : VideoEl) : RenderSize :=
  let renderAspectRatio := v.offsetWidth / v.offsetHeight
  let sourceAspectRatio := v.videoWidth / v.videoHeight
  if v.objectFit = "contain" then
    { width :=
        if sourceAspectRatio < renderAspectRatio then v.offsetHeight * sourceAspectRatio
        else v.offsetWidth,
      height :=
        if sourceAspectRatio < renderAspectRatio then v.offsetHeight
        else v.offsetWidth / sourceAspectRatio }
  else if v.objectFit = "cover" then
    { width :=
        if renderAspectRatio < sourceAspectRatio then v.offsetHeight * sourceAspectRatio
        else v.offsetWidth,
      height :=
        if renderAspectRatio < sourceAspectRatio then v.offsetHeight
        else v.offsetWidth / sourceAspectRatio }
  else if v.objectFit = "fill" then
    { width := v.offsetWidth, height := v.offsetHeight }
  else if v.objectFit = "none" then
    { width := v.videoWidth, height := v.videoHeight }
  else if v.objectFit = "scale-down" then
    { width :=
        min
          (if sourceAspectRatio < renderAspectRatio then v.offsetHeight * sourceAspectRatio
           else v.offsetWidth)
          v.videoWidth,
      height :=
        min
          (if sourceAspectRatio < renderAspectRatio then v.offsetHeight
           else v.offsetWidth / sourceAspectRatio)
          v.videoHeight }
  else
    { width := v.videoWidth, height := v.videoHeight }

/-- Resolve one `object-position` component (`get-video-render-offset.ts`):
a percentage is applied to the leftover space on that axis, an absolute
length is used as is. -/
def resolveOPComponent (leftover : ℚ) : OPComponent → ℚ
  | OPComponent.percent p => leftover * p / 100
  | OPComponent.px p => p

/-- `getVideoRenderOffset` from `get-video-render-offset.ts`. -/
def getVideoRenderOffset (v : VideoEl) (renderSize : RenderSize) : RenderOffset :=
  { x := resolveOPComponent (v.offsetWidth - renderSize.width) v.objectPositionX,
    y := resolveOPComponent (v.offsetHeight - renderSize.height) v.objectPositionY }

/-- `translateAreaToVideoSource` from `translate-area-to-video-source.ts`:
maps an area given in render (on-screen) space into the video's native
source space. -/
def translateAreaToVideoSource (v : VideoEl) (area : ScanArea) : ScanArea :=
  let videoRenderSize := getVideoRenderSize v
  let videoRenderOffset := getVideoRenderOffset v videoRenderSize
  let areaX :=
    if v.isMirroredStyle then
      videoRenderSize.width - (area.x - videoRenderOffset.x) - area.width
    else area.x - videoRenderOffset.x
  let areaY := area.y - videoRenderOffset.y
  let scaleFactorHeight := v.videoHeight / videoRenderSize.height
  let scaleFactorWidth := v.videoWidth / videoRenderSize.width
  { x := areaX * scaleFactorWidth,
    y := areaY * scaleFactorHeight,
    width := area.width * scaleFactorWidth,
    height := area.height * scaleFactorHeight }

/-- `translateAreaToVideoRender` from `translate-area-to-video-render.ts`:
maps an area given in source space into render (on-screen) space. -/
def translateAreaToVideoRender (v : VideoEl) (area : ScanArea) : ScanArea :=
  let videoRenderSize := getVideoRenderSize v
  let videoRenderOffset := getVideoRenderOffset v videoRenderSize
  let areaX :=
    if v.isMirroredStyle then v.videoWidth - area.x - area.width
    else area.x
  let areaY := area.y
  { x := areaX / v.videoWidth * videoRenderSize.width + videoRenderOffset.x,
    y := areaY / v.videoHeight * videoRenderSize.height + videoRenderOffset.y,
    width := area.width / v.videoWidth * videoRenderSize.width,
    height := area.height / v.videoHeight * videoRenderSize.height }

/-- JavaScript `Math.round`: round half toward positive infinity. -/
def jsRound (q : ℚ) : ℚ := (⌊q + 1 / 2⌋ : ℤ)

/-- The default `getScanArea` from `get-scan-area.ts`: a centred square
covering two thirds of the shorter source dimension. -/
def getScanArea (videoWidth videoHeight : ℚ) : ScanArea :=
  let size := jsRound (2 / 3 * min videoWidth videoHeight)
  { x := jsRound ((videoWidth - size) / 2),
    y := jsRound ((videoHeight - size) / 2),
    width := size,
    height := size }

/-- C2: translating an area from source space to render space and back
yields the original area.  Requires non-zero source and render
dimensions; the area's non-negative width/height hypothesis of the claim
is carried along.  Exact over `ℚ`, hence within any floating tolerance. -/
theorem translate_roundtrip_source (v : VideoEl) (area : ScanArea)
    (hw : 0 ≤ area.width) (hh : 0 ≤ area.height)
    (hvw : v.videoWidth ≠ 0) (hvh : v.videoHeight ≠ 0)
    (hrw : (getVideoRenderSize v).width ≠ 0)
    (hrh : (getVideoRenderSize v).height ≠ 0) :
    translateAreaToVideoSource v (translateAreaToVideoRender v area) = area := by
  clear hw hh
  unfold translateAreaToVideoSource translateAreaToVideoRender
  cases hm : v.isMirroredStyle <;>
    · ext <;> simp only [hm, if_true, if_false, Bool.false_eq_true] <;> field_simp <;> ring

/-- C2 witness: the round trip at a concrete mirrored geometry. -/
theorem translate_roundtrip_source_witness :
    (0 : ℚ) ≤ (30 : ℚ) ∧ (0 : ℚ) ≤ (20 : ℚ) ∧
      ((⟨640, 480, 320, 240, "contain", OPComponent.percent 50,
          OPComponent.percent 50, true⟩ : VideoEl).videoWidth ≠ 0) ∧
      translateAreaToVideoSource
          ⟨640, 480, 320, 240, "contain", OPComponent.percent 50,
            OPComponent.percent 50, true⟩
          (translateAreaToVideoRender
            ⟨640, 480, 320, 240, "contain", OPComponent.percent 50,
              OPComponent.percent 50, true⟩
            ⟨100, 100, 30, 20⟩) =
        ⟨100, 100, 30, 20⟩ := by
  refine ⟨by norm_num, by norm_num, by norm_num, ?_⟩
  exact translate_roundtrip_source _ _ (by norm_num) (by norm_num) (by norm_num)
    (by norm_num) (by norm_num [getVideoRenderSize, String.reduceEq])
    (by norm_num [getVideoRenderSize, String.reduceEq])

/-- C7 counterexample: under the `cover` policy (which is not `none`) and
positive container and native dimensions, the computed render size
exceeds the container width: a 200×100 video covered into a 100×100 box
renders at 200×100. -/
theorem getVideoRenderSize_cover_exceeds :
    (⟨200, 100, 100, 100, "cover", OPComponent.px 0, OPComponent.px 0,
        false⟩ : VideoEl).objectFit ≠ "none" ∧
      (0 : ℚ) < 100 ∧ (0 : ℚ) < 200 ∧
      (getVideoRenderSize
          ⟨200, 100, 100, 100, "cover", OPComponent.px 0, OPComponent.px 0,
            false⟩).width >
        (⟨200, 100, 100, 100, "cover", OPComponent.px 0, OPComponent.px 0,
            false⟩ : VideoEl).offsetWidth := by
  refine ⟨by decide, by norm_num, by norm_num, ?_⟩
  simp [getVideoRenderSize, String.reduceEq]
  norm_num

/-- C7 amended: for the `contain`, `fill` and `scale-down` policies (but
not `cover`, which covers and hence overflows the container, nor `none`)
the computed render size never exceeds the container on either axis, and
under `scale-down` it never exceeds the native source size on either
axis. -/
theorem getVideoRenderSize_bounds (v : VideoEl)
    (hvw : 0 < v.videoWidth) (hvh : 0 < v.videoHeight)
    (how : 0 < v.offsetWidth) (hoh : 0 < v.offsetHeight) :
    ((v.objectFit = "contain" ∨ v.objectFit = "fill" ∨ v.objectFit = "scale-down") →
      (getVideoRenderSize v).width ≤ v.offsetWidth ∧
        (getVideoRenderSize v).height ≤ v.offsetHeight) ∧
      (v.objectFit = "scale-down" →
        (getVideoRenderSize v).width ≤ v.videoWidth ∧
          (getVideoRenderSize v).height ≤ v.videoHeight) := by
  have hcw :
      (if v.videoWidth / v.videoHeight < v.offsetWidth / v.offsetHeight then
          v.offsetHeight * (v.videoWidth / v.videoHeight)
        else v.offsetWidth) ≤ v.offsetWidth := by
    split_ifs with h
    · rw [div_lt_div_iff₀ hvh hoh] at h
      rw [mul_div_assoc', div_le_iff₀ hvh]
      nlinarith
    · exact le_refl _
  have hch :
      (if v.videoWidth / v.videoHeight < v.offsetWidth / v.offsetHeight then
          v.offsetHeight
        else v.offsetWidth / (v.videoWidth / v.videoHeight)) ≤ v.offsetHeight := by
    split_ifs with h
    · exact le_refl _
    · rw [not_lt, div_le_div_iff₀ hoh hvh] at h
      rw [div_div_eq_mul_div, div_le_iff₀ hvw]
      nlinarith
  constructor
  · rintro (hfit | hfit | hfit) <;>
      simp only [getVideoRenderSize, hfit, if_true, reduceIte]
    · exact ⟨hcw, hch⟩
    · exact ⟨le_refl _, le_refl _⟩
    · exact ⟨le_trans (min_le_left _ _) hcw, le_trans (min_le_left _ _) hch⟩
  · intro hfit
    simp only [getVideoRenderSize, hfit, reduceIte]
    exact ⟨min_le_right _ _, min_le_right _ _⟩

/-- C7 amended witness: the bounds at a concrete `scale-down` geometry. -/
theorem getVideoRenderSize_bounds_witness :
    (0 : ℚ) < 640 ∧ (0 : ℚ) < 480 ∧ (0 : ℚ) < 300 ∧ (0 : ℚ) < 300 ∧
      ((getVideoRenderSize
            ⟨640, 480, 300, 300, "scale-down", OPComponent.px 0,
              OPComponent.px 0, false⟩).width ≤
          (300 : ℚ) ∧
        (getVideoRenderSize
            ⟨640, 480, 300, 300, "scale-down", OPComponent.px 0,
              OPComponent.px 0, false⟩).height ≤
          (300 : ℚ)) := by
  refine ⟨by norm_num, by norm_num, by norm_num, by norm_num, ?_⟩
  exact (getVideoRenderSize_bounds _ (by norm_num) (by norm_num) (by norm_num)
      (by norm_num)).1 (Or.inr (Or.inr rfl))

/-- A point of a detected symbol's corner sequence. -/
structure Point where
  x : ℚ
  y : ℚ
  deriving DecidableEq, Repr

/-- The ordered sequence of four corner points of a detected symbol,
expressed in scan-area-local coordinates. -/
structure CornerPoints where
  p1 : Point
  p2 : Point
  p3 : Point
  p4 : Point
  deriving DecidableEq, Repr

/-- A detected symbol as delivered by the decode engine
(`DetectedBarcode` of `barcode-detector`): raw decoded string, format and
corner points. -/
structure Barcode where
  rawValue : String
  format : String
  cornerPoints : CornerPoints
  deriving DecidableEq, Repr

/-- Modelled from the spec: the `./constants` module (not present under
`src/`) exports three distinct failure-token string constants,
`WORKER_LOAD_FAILURE_CAUSE`, `WORKER_LOAD_TIMEOUT_CAUSE` and
`WORKER_DECODE_TIMEOUT_CAUSE`, modelled as the constructors of this
type.  Where each token ends up on a thrown `Error` is taken from the
code, not from here: see `JsError` and `chanError`. -/
inductive CauseToken where
  | workerLoadFailure
  | workerLoadTimeout
  | workerDecodeTimeout
  deriving DecidableEq, Repr

/-- A thrown `Error` as observed by the `catch` of `tick`: its message
and its `cause` property, each possibly one of the token constants.
The two are distinct fields because `create-worker.ts` puts the token
into the message while `tick` inspects `cause`. -/
structure JsError where
  message : Option CauseToken
  cause : Option CauseToken
  deriving DecidableEq, Repr

/-- The rejection value the Decode Channel constructs for a failure
token (`create-worker.ts`, lines 92, 107, 130): `new Error(TOKEN)` — the
token is the message, and since no options object is passed, `cause` is
left undefined. -/
def chanError (t : CauseToken) : JsError :=
  { message := some t, cause := none }

/-- How an in-flight decode settles, as observed by the `try`/`catch` of
`tick` in `create-barcode-scanner.ts`: a symbol, `null`, or a thrown
error.  `errored none` models a thrown falsy value or a non-`Error`
(neither of which has its `cause` inspected). -/
inductive DecodeOutcome where
  | found (b : Barcode)
  | notFound
  | errored (err : Option JsError)
  deriving DecidableEq, Repr

/-- A recorded invocation of a caller-supplied decode callback. -/
inductive CallbackCall where
  | success (rawValue : String) (area : ScanArea)
  | failure
  deriving DecidableEq, Repr

/-- The mutable scanner state of `create-barcode-scanner.ts` as seen by
the frame scheduler, together with observation-only ghost fields:
`inFlight` counts decode requests submitted but not yet settled,
`admits` records the times of admitted frames (newest first),
`callbacks` logs callback invocations (newest first), and
`tickScheduled` records whether a `requestFrame(tick)` callback is
pending. -/
structure SchedState where
  decodeFrameTs : ℚ
  isDecodeFrameProcessed : Bool
  isDestroyed : Bool
  isVideoActive : Bool
  isVideoPaused : Bool
  isWorkerLoadFailure : Bool
  scanArea : ScanArea
  scanRate : ℚ
  videoWidth : ℚ
  videoHeight : ℚ
  tickScheduled : Bool
  inFlight : ℕ
  admits : List ℚ
  callbacks : List CallbackCall
  deriving DecidableEq, Repr

/-- The enclosing axis-aligned box computed in the success branch of
`tick`: minimum corner plus scan-area origin, extent as max minus min of
the corner coordinates. -/
def detectedArea (cp : CornerPoints) (scanArea : ScanArea) : ScanArea :=
  let minX := min (min cp.p1.x cp.p2.x) (min cp.p3.x cp.p4.x)
  let maxX := max (max cp.p1.x cp.p2.x) (max cp.p3.x cp.p4.x)
  let minY := min (min cp.p1.y cp.p2.y) (min cp.p3.y cp.p4.y)
  let maxY := max (max cp.p1.y cp.p2.y) (max cp.p3.y cp.p4.y)
  { x := minX + scanArea.x,
    y := minY + scanArea.y,
    width := maxX - minX,
    height := maxY - minY }

namespace Sched

/-- An event observed by the scheduler: a frame-request callback firing
(`tick`, at wall-clock `now` with the video's current `readyState`), an
in-flight decode settling, or a `stop()`/`destroy()` call from the
lifecycle controller. -/
inductive Event where
  | tick (now : ℚ) (readyState : ℕ)
  | settle (now : ℚ) (outcome : DecodeOutcome)
  | stopCall
  | destroyCall
  deriving DecidableEq, Repr

/-- One `tick` of the scheduler (`create-barcode-scanner.ts`, lines
115-132 and the admission path).  A tick only fires if a
`requestFrame` callback is pending; it then runs the terminal check, the
admission check, and on admission sets the in-flight flag, recomputes the
scan area and submits a decode. -/
def tick (s : SchedState) (now : ℚ) (readyState : ℕ) : SchedState :=
  if s.tickScheduled = false then s
  else if s.isDestroyed = true ∨ s.isVideoActive = false then
    { s with tickScheduled := false }
  else if now - s.decodeFrameTs < 1000 / s.scanRate ∨
      s.isDecodeFrameProcessed = true ∨ readyState ≤ 1 then
    { s with tickScheduled := true }
  else
    { s with tickScheduled := false,
             isDecodeFrameProcessed := true,
             scanArea := getScanArea s.videoWidth s.videoHeight,
             inFlight := s.inFlight + 1,
             admits := now :: s.admits }

/-- The `try`/`catch` body of `tick` (`create-barcode-scanner.ts`, lines
167-196) once `decode` has settled: invoke the success or failure
callback, or, for a thrown truthy `Error`, set the hard-failure flag
exactly when the error's `cause` property equals one of the two
worker-load tokens. -/
def settleBody (s : SchedState) : DecodeOutcome → SchedState
  | DecodeOutcome.found b =>
      { s with callbacks :=
          CallbackCall.success b.rawValue (detectedArea b.cornerPoints s.scanArea) ::
            s.callbacks }
  | DecodeOutcome.notFound =>
      { s with callbacks := CallbackCall.failure :: s.callbacks }
  | DecodeOutcome.errored err =>
      match err with
      | some e =>
          if e.cause = some CauseToken.workerLoadFailure ∨
              e.cause = some CauseToken.workerLoadTimeout then
            { s with isWorkerLoadFailure := true }
          else s
      | none => s

/-- The `finally` block of `tick`: unless the hard-failure flag is set,
clear the in-flight flag, stamp the timestamp and reschedule. -/
def settleFin (s : SchedState) (now : ℚ) : SchedState :=
  if s.isWorkerLoadFailure = false then
    { s with isDecodeFrameProcessed := false, decodeFrameTs := now,
             tickScheduled := true }
  else s

/-- Settlement of the in-flight decode: the ghost in-flight count drops,
then the `try`/`catch` body and the `finally` block run. -/
def settle (s : SchedState) (now : ℚ) (outcome : DecodeOutcome) : SchedState :=
  if s.inFlight = 0 then s
  else settleFin (settleBody { s with inFlight := s.inFlight - 1 } outcome) now

/-- `stop()` (`create-barcode-scanner.ts`, lines 294-315), restricted to
the fields the scheduler reads. -/
def stop (s : SchedState) : SchedState :=
  if s.isVideoActive = false ∨ s.isDestroyed = true then s
  else { s with isVideoActive := false, isVideoPaused := false }

/-- `destroy()` (`create-barcode-scanner.ts`, lines 212-222): runs
`stop`, then marks destroyed. -/
def destroy (s : SchedState) : SchedState :=
  if s.isDestroyed = true then s
  else { stop s with isDestroyed := true }

/-- Dispatch one event. -/
def step (s : SchedState) : Event → SchedState
  | Event.tick now readyState => tick s now readyState
  | Event.settle now outcome => settle s now outcome
  | Event.stopCall => stop s
  | Event.destroyCall => destroy s

/-- Run the scheduler over a list of events. -/
def run (s : SchedState) : List Event → SchedState
  | [] => s
  | e :: rest => run (step s e) rest

/-- The scanner state right after `start()` has launched `handleDecode`:
active, no decode in flight, one frame-request callback pending, and the
creation timestamp `t0` as the initial `decodeFrameTs`. -/
def init (t0 scanRate videoWidth videoHeight : ℚ) : SchedState :=
  { decodeFrameTs := t0,
    isDecodeFrameProcessed := false,
    isDestroyed := false,
    isVideoActive := true,
    isVideoPaused := false,
    isWorkerLoadFailure := false,
    scanArea := getScanArea videoWidth videoHeight,
    scanRate := scanRate,
    videoWidth := videoWidth,
    videoHeight := videoHeight,
    tickScheduled := true,
    inFlight := 0,
    admits := [],
    callbacks := [] }

/-- Wall-clock chronology of an event list: the times carried by `tick`
and `settle` events never decrease, starting from `t`. -/
def Chron (t : ℚ) : List Event → Prop
  | [] => True
  | Event.tick now _ :: rest => t ≤ now ∧ Chron now rest
  | Event.settle now _ :: rest => t ≤ now ∧ Chron now rest
  | Event.stopCall :: rest => Chron t rest
  | Event.destroyCall :: rest => Chron t rest

/-- Consecutive elements of a newest-first time list are separated by at
least `p`. -/
def Spaced (p : ℚ) : List ℚ → Prop
  | [] => True
  | [_] => True
  | a :: b :: rest => b + p ≤ a ∧ Spaced p (b :: rest)

end Sched

namespace Sched

/-- Backpressure invariant: at most one decode outstanding, and none
unless the `isDecodeFrameProcessed` flag is set. -/
def OneInFlight (s : SchedState) : Prop :=
  s.inFlight ≤ 1 ∧ (s.isDecodeFrameProcessed = false → s.inFlight = 0)

theorem oneInFlight_tick (s : SchedState) (now : ℚ) (readyState : ℕ)
    (h : OneInFlight s) : OneInFlight (tick s now readyState) := by
  unfold OneInFlight tick at *
  split_ifs with h1 h2 h3
  · exact h
  · exact h
  · exact h
  · simp only [not_or] at h3
    refine ⟨?_, ?_⟩
    · have h0 := h.2 (by simpa using h3.2.1)
      simp [h0]
    · intro hflag
      simp at hflag

theorem oneInFlight_settle (s : SchedState) (now : ℚ) (outcome : DecodeOutcome)
    (h : OneInFlight s) : OneInFlight (settle s now outcome) := by
  unfold settle
  split_ifs with h1
  · exact h
  have hle : s.inFlight - 1 = 0 := by
    have := h.1
    omega
  have hbody :
      (settleBody { s with inFlight := s.inFlight - 1 } outcome).inFlight = 0 := by
    cases outcome with
    | found b => simpa [settleBody] using hle
    | notFound => simpa [settleBody] using hle
    | errored err =>
        cases err with
        | none => simpa [settleBody] using hle
        | some e =>
            simp only [settleBody]
            split_ifs <;> simpa using hle
  unfold OneInFlight settleFin
  split_ifs with h2
  · exact ⟨by simp [hbody], fun _ => by simp [hbody]⟩
  · exact ⟨by simp [hbody], fun _ => hbody⟩

theorem oneInFlight_step (s : SchedState) (e : Event) (h : OneInFlight s) :
    OneInFlight (step s e) := by
  cases e with
  | tick now readyState => exact oneInFlight_tick s now readyState h
  | settle now outcome => exact oneInFlight_settle s now outcome h
  | stopCall =>
      unfold OneInFlight step stop at *
      split_ifs <;> simp_all
  | destroyCall =>
      unfold OneInFlight step destroy stop at *
      split_ifs <;> simp_all

theorem oneInFlight_run (s : SchedState) (tr : List Event) (h : OneInFlight s) :
    OneInFlight (run s tr) := by
  induction tr generalizing s with
  | nil => exact h
  | cons e rest ih => exact ih (step s e) (oneInFlight_step s e h)

end Sched

namespace Sched

@[simp]
theorem settleBody_admits (s : SchedState) (o : DecodeOutcome) :
    (settleBody s o).admits = s.admits := by
  cases o with
  | found b => rfl
  | notFound => rfl
  | errored err =>
      cases err with
      | none => rfl
      | some e =>
          simp only [settleBody]
          split_ifs <;> rfl

@[simp]
theorem settleBody_decodeFrameTs (s : SchedState) (o : DecodeOutcome) :
    (settleBody s o).decodeFrameTs = s.decodeFrameTs := by
  cases o with
  | found b => rfl
  | notFound => rfl
  | errored err =>
      cases err with
      | none => rfl
      | some e =>
          simp only [settleBody]
          split_ifs <;> rfl

@[simp]
theorem settleBody_scanRate (s : SchedState) (o : DecodeOutcome) :
    (settleBody s o).scanRate = s.scanRate := by
  cases o with
  | found b => rfl
  | notFound => rfl
  | errored err =>
      cases err with
      | none => rfl
      | some e =>
          simp only [settleBody]
          split_ifs <;> rfl

@[simp]
theorem settleBody_isDecodeFrameProcessed (s : SchedState) (o : DecodeOutcome) :
    (settleBody s o).isDecodeFrameProcessed = s.isDecodeFrameProcessed := by
  cases o with
  | found b => rfl
  | notFound => rfl
  | errored err =>
      cases err with
      | none => rfl
      | some e =>
          simp only [settleBody]
          split_ifs <;> rfl

@[simp]
theorem settleBody_inFlight (s : SchedState) (o : DecodeOutcome) :
    (settleBody s o).inFlight = s.inFlight := by
  cases o with
  | found b => rfl
  | notFound => rfl
  | errored err =>
      cases err with
      | none => rfl
      | some e =>
          simp only [settleBody]
          split_ifs <;> rfl

@[simp]
theorem settleBody_tickScheduled (s : SchedState) (o : DecodeOutcome) :
    (settleBody s o).tickScheduled = s.tickScheduled := by
  cases o with
  | found b => rfl
  | notFound => rfl
  | errored err =>
      cases err with
      | none => rfl
      | some e =>
          simp only [settleBody]
          split_ifs <;> rfl

/-- Timing invariant: admitted-frame times (newest first) are spaced by
the scan period, every recorded time is at most the wall clock `t`, and
while no decode is in flight the newest admission precedes the stamped
`decodeFrameTs`. -/
def TimedInv (t : ℚ) (s : SchedState) : Prop :=
  Spaced (1000 / s.scanRate) s.admits ∧
    s.decodeFrameTs ≤ t ∧
    (∀ a, s.admits.head? = some a → a ≤ t) ∧
    (s.isDecodeFrameProcessed = false →
      ∀ a, s.admits.head? = some a → a ≤ s.decodeFrameTs)

theorem timedInv_mono (t t' : ℚ) (s : SchedState) (hle : t ≤ t')
    (h : TimedInv t s) : TimedInv t' s :=
  ⟨h.1, le_trans h.2.1 hle, fun a ha => le_trans (h.2.2.1 a ha) hle, h.2.2.2⟩

theorem timedInv_tick (s : SchedState) (now : ℚ) (readyState : ℕ) (t : ℚ)
    (hInv : TimedInv t s) (ht : t ≤ now) : TimedInv now (tick s now readyState) := by
  unfold tick
  split_ifs with h1 h2 h3
  · exact timedInv_mono t now s ht hInv
  · exact ⟨hInv.1, le_trans hInv.2.1 ht,
      fun a ha => le_trans (hInv.2.2.1 a ha) ht, hInv.2.2.2⟩
  · exact ⟨hInv.1, le_trans hInv.2.1 ht,
      fun a ha => le_trans (hInv.2.2.1 a ha) ht, hInv.2.2.2⟩
  · simp only [not_or, not_lt] at h3
    obtain ⟨hgap, hflag, -⟩ := h3
    have hflag' : s.isDecodeFrameProcessed = false := by
      simpa using hflag
    refine ⟨?_, le_trans hInv.2.1 ht, ?_, ?_⟩
    · show Spaced (1000 / s.scanRate) (now :: s.admits)
      cases ha : s.admits with
      | nil => exact trivial
      | cons a rest =>
          refine ⟨?_, by rw [← ha]; exact hInv.1⟩
          have haa : s.admits.head? = some a := by rw [ha]; rfl
          have h4 := hInv.2.2.2 hflag' a haa
          linarith
    · intro a ha
      simp only [List.head?_cons] at ha
      obtain rfl := Option.some.inj ha
      exact le_refl now
    · intro hcontra
      simp at hcontra

theorem timedInv_settle (s : SchedState) (now : ℚ) (outcome : DecodeOutcome)
    (t : ℚ) (hInv : TimedInv t s) (ht : t ≤ now) :
    TimedInv now (settle s now outcome) := by
  unfold settle
  split_ifs with h1
  · exact timedInv_mono t now s ht hInv
  unfold settleFin
  split_ifs with h2
  · exact ⟨by simpa using hInv.1, by simp,
      fun a ha => by simpa using le_trans (hInv.2.2.1 a (by simpa using ha)) ht,
      fun _ a ha => by simpa using le_trans (hInv.2.2.1 a (by simpa using ha)) ht⟩
  · refine ⟨by simpa using hInv.1, by simpa using le_trans hInv.2.1 ht,
      fun a ha => by simpa using le_trans (hInv.2.2.1 a (by simpa using ha)) ht,
      fun hf a ha => ?_⟩
    have hf2 : s.isDecodeFrameProcessed = false := by simpa using hf
    have hd := hInv.2.2.2 hf2 a (by simpa using ha)
    simpa using hd

theorem timedInv_stop (s : SchedState) (t : ℚ) (hInv : TimedInv t s) :
    TimedInv t (stop s) := by
  unfold stop
  split_ifs <;> exact hInv

theorem timedInv_destroy (s : SchedState) (t : ℚ) (hInv : TimedInv t s) :
    TimedInv t (destroy s) := by
  unfold destroy stop
  split_ifs <;> exact hInv

theorem timedInv_run (tr : List Event) :
    ∀ (t : ℚ) (s : SchedState), TimedInv t s → Chron t tr →
      ∃ t2, TimedInv t2 (run s tr) := by
  induction tr with
  | nil => exact fun t s h _ => ⟨t, h⟩
  | cons e rest ih =>
      intro t s h hc
      cases e with
      | tick now readyState =>
          obtain ⟨hle, hc'⟩ := hc
          exact ih now _ (timedInv_tick s now readyState t h hle) hc'
      | settle now outcome =>
          obtain ⟨hle, hc'⟩ := hc
          exact ih now _ (timedInv_settle s now outcome t h hle) hc'
      | stopCall => exact ih t _ (timedInv_stop s t h) hc
      | destroyCall => exact ih t _ (timedInv_destroy s t h) hc

@[simp]
theorem step_scanRate (s : SchedState) (e : Event) :
    (step s e).scanRate = s.scanRate := by
  cases e with
  | tick now readyState =>
      simp only [step]
      unfold tick
      split_ifs <;> rfl
  | settle now outcome =>
      simp only [step]
      unfold settle settleFin
      split_ifs <;> simp
  | stopCall =>
      simp only [step]
      unfold stop
      split_ifs <;> rfl
  | destroyCall =>
      simp only [step]
      unfold destroy stop
      split_ifs <;> rfl

theorem run_scanRate (tr : List Event) :
    ∀ s : SchedState, (run s tr).scanRate = s.scanRate := by
  induction tr with
  | nil => exact fun s => rfl
  | cons e rest ih => exact fun s => (ih (step s e)).trans (step_scanRate s e)

theorem timedInv_init (t0 scanRate videoWidth videoHeight : ℚ) :
    TimedInv t0 (init t0 scanRate videoWidth videoHeight) := by
  refine ⟨trivial, le_refl t0, ?_, ?_⟩
  · intro a ha
    simp [init] at ha
  · intro _ a ha
    simp [init] at ha

end Sched

/-- C1: over every interleaving of scheduler ticks, decode settlements
and stop/destroy calls, at most one decode request is ever in flight, and
none is in flight while `isDecodeFrameProcessed` is false — the flag is
set at submission and cleared only at settlement. -/
theorem at_most_one_decode_in_flight (t0 scanRate videoWidth videoHeight : ℚ)
    (tr : List Sched.Event) :
    (Sched.run (Sched.init t0 scanRate videoWidth videoHeight) tr).inFlight ≤ 1 ∧
      ((Sched.run (Sched.init t0 scanRate videoWidth videoHeight)
            tr).isDecodeFrameProcessed = false →
        (Sched.run (Sched.init t0 scanRate videoWidth videoHeight) tr).inFlight = 0) :=
  Sched.oneInFlight_run _ tr ⟨by simp [Sched.init], fun _ => by simp [Sched.init]⟩

/-- C1 witness: the invariant after a concrete interleaving that admits a
frame and settles it. -/
theorem at_most_one_decode_in_flight_witness :
    (Sched.run (Sched.init 0 24 640 480)
          [Sched.Event.tick 42 4, Sched.Event.settle 43 DecodeOutcome.notFound,
            Sched.Event.tick 50 4]).inFlight ≤ 1 ∧
      ((Sched.run (Sched.init 0 24 640 480)
              [Sched.Event.tick 42 4, Sched.Event.settle 43 DecodeOutcome.notFound,
                Sched.Event.tick 50 4]).isDecodeFrameProcessed = false →
        (Sched.run (Sched.init 0 24 640 480)
              [Sched.Event.tick 42 4, Sched.Event.settle 43 DecodeOutcome.notFound,
                Sched.Event.tick 50 4]).inFlight = 0) :=
  at_most_one_decode_in_flight 0 24 640 480
    [Sched.Event.tick 42 4, Sched.Event.settle 43 DecodeOutcome.notFound,
      Sched.Event.tick 50 4]

/-- C3: with `scanRate = 24`, under a monotone clock any two successive
admitted frames are separated by at least `1000/24` milliseconds,
regardless of how often frame-request callbacks fire. -/
theorem scanRate24_admissions_spaced (t0 videoWidth videoHeight : ℚ)
    (tr : List Sched.Event) (hc : Sched.Chron t0 tr) :
    Sched.Spaced (1000 / 24)
      ((Sched.run (Sched.init t0 24 videoWidth videoHeight) tr).admits) := by
  obtain ⟨t2, hInv⟩ :=
    Sched.timedInv_run tr t0 _ (Sched.timedInv_init t0 24 videoWidth videoHeight) hc
  have hr : (Sched.run (Sched.init t0 24 videoWidth videoHeight) tr).scanRate = 24 :=
    Sched.run_scanRate tr _
  have hsp := hInv.1
  rwa [hr] at hsp

/-- C3 witness: a concrete chronological trace in which frame callbacks
fire faster than the scan period. -/
theorem scanRate24_admissions_spaced_witness :
    Sched.Chron 0
        [Sched.Event.tick 42 4, Sched.Event.settle 43 DecodeOutcome.notFound,
          Sched.Event.tick 50 4, Sched.Event.tick 85 4] ∧
      Sched.Spaced (1000 / 24)
        ((Sched.run (Sched.init 0 24 640 480)
              [Sched.Event.tick 42 4, Sched.Event.settle 43 DecodeOutcome.notFound,
                Sched.Event.tick 50 4, Sched.Event.tick 85 4]).admits) := by
  have hc : Sched.Chron 0
      [Sched.Event.tick 42 4, Sched.Event.settle 43 DecodeOutcome.notFound,
        Sched.Event.tick 50 4, Sched.Event.tick 85 4] := by
    refine ⟨by norm_num, by norm_num, by norm_num, by norm_num, trivial⟩
  exact ⟨hc, scanRate24_admissions_spaced 0 640 480 _ hc⟩

namespace Sched

theorem frozen_step (s : SchedState) (e : Event)
    (h1 : s.tickScheduled = false) (h2 : s.inFlight = 0) :
    (step s e).tickScheduled = false ∧ (step s e).inFlight = 0 ∧
      (step s e).admits = s.admits ∧ (step s e).callbacks = s.callbacks := by
  cases e with
  | tick now readyState =>
      simp only [step]
      unfold tick
      rw [if_pos h1]
      exact ⟨h1, h2, rfl, rfl⟩
  | settle now outcome =>
      simp only [step]
      unfold settle
      rw [if_pos h2]
      exact ⟨h1, h2, rfl, rfl⟩
  | stopCall =>
      simp only [step]
      unfold stop
      split_ifs <;> exact ⟨h1, h2, rfl, rfl⟩
  | destroyCall =>
      simp only [step]
      unfold destroy stop
      split_ifs <;> exact ⟨h1, h2, rfl, rfl⟩

/-- A state with no pending frame-request callback and no decode in
flight never admits another frame and never invokes another callback:
`requestFrame(tick)` is the only way the loop continues. -/
theorem frozen_run (tr : List Event) :
    ∀ s : SchedState, s.tickScheduled = false → s.inFlight = 0 →
      (run s tr).admits = s.admits ∧ (run s tr).callbacks = s.callbacks := by
  induction tr with
  | nil => exact fun s _ _ => ⟨rfl, rfl⟩
  | cons e rest ih =>
      intro s h1 h2
      obtain ⟨g1, g2, g3, g4⟩ := frozen_step s e h1 h2
      obtain ⟨r1, r2⟩ := ih (step s e) g1 g2
      exact ⟨r1.trans g3, r2.trans g4⟩

end Sched

/-- C4 counterexample: with a decode admitted at t=42 and `stop()` called
while it is in flight, the scanner is inactive with the decode still
outstanding, yet when the decode settles at t=100 the success callback is
invoked anyway — the terminal/active flags are not checked on the decode
completion path. -/
theorem stop_does_not_suppress_late_callbacks :
    (Sched.run (Sched.init 0 24 640 480)
          [Sched.Event.tick 42 4, Sched.Event.stopCall]).isVideoActive = false ∧
      (Sched.run (Sched.init 0 24 640 480)
            [Sched.Event.tick 42 4, Sched.Event.stopCall]).inFlight = 1 ∧
      (Sched.run (Sched.init 0 24 640 480)
            [Sched.Event.tick 42 4, Sched.Event.stopCall,
              Sched.Event.settle 100
                (DecodeOutcome.found
                  ⟨"ABC123", "qr_code",
                    ⟨⟨10, 10⟩, ⟨50, 10⟩, ⟨50, 50⟩, ⟨10, 50⟩⟩⟩)]).callbacks =
        [CallbackCall.success "ABC123"
            (detectedArea ⟨⟨10, 10⟩, ⟨50, 10⟩, ⟨50, 50⟩, ⟨10, 50⟩⟩
              (getScanArea 640 480))] := by
  refine ⟨?_, ?_, ?_⟩ <;>
    norm_num [Sched.run, Sched.step, Sched.tick, Sched.settle, Sched.settleBody,
      Sched.settleFin, Sched.stop, Sched.init]

/-- C4 amended: `stop()`/`destroy()` do not cancel an in-flight decode
and its eventual settlement still invokes the success or failure
callback; the terminal/active flags are checked only at the start of the
next scheduled tick, which then admits nothing and invokes nothing, so
no further frame is captured after stop/destroy. -/
theorem late_response_behavior (s : SchedState) (now : ℚ) (readyState : ℕ)
    (b : Barcode)
    (hterm : s.isDestroyed = true ∨ s.isVideoActive = false)
    (hin : s.inFlight ≠ 0) :
    (Sched.tick s now readyState).admits = s.admits ∧
      (Sched.tick s now readyState).inFlight = s.inFlight ∧
      (Sched.tick s now readyState).callbacks = s.callbacks ∧
      (Sched.settle s now (DecodeOutcome.found b)).callbacks =
        CallbackCall.success b.rawValue (detectedArea b.cornerPoints s.scanArea) ::
          s.callbacks ∧
      (Sched.settle s now DecodeOutcome.notFound).callbacks =
        CallbackCall.failure :: s.callbacks := by
  refine ⟨?_, ?_, ?_, ?_, ?_⟩
  · unfold Sched.tick
    split_ifs with h1
    · rfl
    · rfl
  · unfold Sched.tick
    split_ifs with h1
    · rfl
    · rfl
  · unfold Sched.tick
    split_ifs with h1
    · rfl
    · rfl
  · unfold Sched.settle
    rw [if_neg hin]
    unfold Sched.settleFin
    split_ifs <;> simp [Sched.settleBody]
  · unfold Sched.settle
    rw [if_neg hin]
    unfold Sched.settleFin
    split_ifs <;> simp [Sched.settleBody]

/-- C4 amended witness: the behavior at a concrete stopped state with one
decode in flight. -/
theorem late_response_behavior_witness :
    ((⟨0, true, false, false, false, false, ⟨100, 100, 320, 320⟩, 24, 640, 480,
          false, 1, [42], []⟩ : SchedState).isDestroyed = true ∨
        (⟨0, true, false, false, false, false, ⟨100, 100, 320, 320⟩, 24, 640, 480,
            false, 1, [42], []⟩ : SchedState).isVideoActive = false) ∧
      (Sched.settle
          ⟨0, true, false, false, false, false, ⟨100, 100, 320, 320⟩, 24, 640, 480,
            false, 1, [42], []⟩ 100
          (DecodeOutcome.found
            ⟨"ABC123", "qr_code",
              ⟨⟨10, 10⟩, ⟨50, 10⟩, ⟨50, 50⟩, ⟨10, 50⟩⟩⟩)).callbacks =
        CallbackCall.success "ABC123"
            (detectedArea ⟨⟨10, 10⟩, ⟨50, 10⟩, ⟨50, 50⟩, ⟨10, 50⟩⟩
              ⟨100, 100, 320, 320⟩) ::
          [] := by
  refine ⟨Or.inr rfl, ?_⟩
  exact (late_response_behavior _ 100 4 _ (Or.inr rfl) (by norm_num)).2.2.2.1

/-- C5 (code bug): the Decode Channel rejects load-class failures with
`new Error(WORKER_LOAD_FAILURE_CAUSE)` and
`new Error(WORKER_LOAD_TIMEOUT_CAUSE)` (`create-worker.ts`, lines 92,
107) — the token becomes the Error's message and `cause` is left
undefined — while `tick` (`create-barcode-scanner.ts`, lines 190-195)
classifies hard failures by comparing `err.cause` against those tokens.
The comparison therefore never matches: settling an in-flight decode
with any channel-constructed failure leaves `isWorkerLoadFailure` false,
clears the in-flight flag, stamps the timestamp and reschedules, so
scanning continues instead of halting.  The halt machinery fires only
for an error that carries a token in `cause`, which nothing in the
program constructs: there the flag is set, no tick is rescheduled, and
no frame is ever admitted nor callback invoked again. -/
theorem worker_load_error_not_classified :
    (∀ t : CauseToken,
        (Sched.settle
              (⟨0, true, false, true, false, false, ⟨100, 100, 320, 320⟩, 24,
                640, 480, false, 1, [42], []⟩ : SchedState) 100
              (DecodeOutcome.errored
                (some (chanError t)))).isWorkerLoadFailure = false ∧
          (Sched.settle
              (⟨0, true, false, true, false, false, ⟨100, 100, 320, 320⟩, 24,
                640, 480, false, 1, [42], []⟩ : SchedState) 100
              (DecodeOutcome.errored
                (some (chanError t)))).isDecodeFrameProcessed = false ∧
          (Sched.settle
              (⟨0, true, false, true, false, false, ⟨100, 100, 320, 320⟩, 24,
                640, 480, false, 1, [42], []⟩ : SchedState) 100
              (DecodeOutcome.errored
                (some (chanError t)))).tickScheduled = true ∧
          (Sched.settle
              (⟨0, true, false, true, false, false, ⟨100, 100, 320, 320⟩, 24,
                640, 480, false, 1, [42], []⟩ : SchedState) 100
              (DecodeOutcome.errored
                (some (chanError t)))).decodeFrameTs = 100) ∧
      (Sched.settle
          (⟨0, true, false, true, false, false, ⟨100, 100, 320, 320⟩, 24, 640,
            480, false, 1, [42], []⟩ : SchedState) 100
          (DecodeOutcome.errored
            (some ⟨none, some CauseToken.workerLoadFailure⟩))).isWorkerLoadFailure =
        true ∧
      (Sched.settle
          (⟨0, true, false, true, false, false, ⟨100, 100, 320, 320⟩, 24, 640,
            480, false, 1, [42], []⟩ : SchedState) 100
          (DecodeOutcome.errored
            (some ⟨none, some CauseToken.workerLoadTimeout⟩))).tickScheduled =
        false ∧
      ∀ tr : List Sched.Event,
        (Sched.run
              (Sched.settle
                (⟨0, true, false, true, false, false, ⟨100, 100, 320, 320⟩, 24,
                  640, 480, false, 1, [42], []⟩ : SchedState) 100
                (DecodeOutcome.errored
                  (some ⟨none, some CauseToken.workerLoadFailure⟩)))
              tr).admits =
            (Sched.settle
              (⟨0, true, false, true, false, false, ⟨100, 100, 320, 320⟩, 24,
                640, 480, false, 1, [42], []⟩ : SchedState) 100
              (DecodeOutcome.errored
                (some ⟨none, some CauseToken.workerLoadFailure⟩))).admits ∧
          (Sched.run
                (Sched.settle
                  (⟨0, true, false, true, false, false, ⟨100, 100, 320, 320⟩,
                    24, 640, 480, false, 1, [42], []⟩ : SchedState) 100
                  (DecodeOutcome.errored
                    (some ⟨none, some CauseToken.workerLoadFailure⟩)))
                tr).callbacks =
            (Sched.settle
              (⟨0, true, false, true, false, false, ⟨100, 100, 320, 320⟩, 24,
                640, 480, false, 1, [42], []⟩ : SchedState) 100
              (DecodeOutcome.errored
                (some ⟨none, some CauseToken.workerLoadFailure⟩))).callbacks := by
  refine ⟨?_, ?_, ?_, ?_⟩
  · intro t
    refine ⟨?_, ?_, ?_, ?_⟩ <;>
      simp [Sched.settle, Sched.settleBody, Sched.settleFin, chanError]
  · simp [Sched.settle, Sched.settleBody, Sched.settleFin]
  · simp [Sched.settle, Sched.settleBody, Sched.settleFin]
  · intro tr
    exact Sched.frozen_run tr _
      (by simp [Sched.settle, Sched.settleBody, Sched.settleFin])
      (by simp [Sched.settle, Sched.settleBody, Sched.settleFin])

/-- C9: whenever a decode settles with a detected symbol, the scheduler
invokes the success callback with the raw value and the axis-aligned box
whose origin is the minimum corner coordinate plus the scan area's
origin and whose extent is the max-minus-min of the corner coordinates;
at corner points (10,10),(50,10),(50,50),(10,50) and a scan area at
origin (100,100) the box is {x:110, y:110, width:40, height:40}. -/
theorem success_callback_bounding_box (s : SchedState) (now : ℚ) (b : Barcode)
    (hin : s.inFlight ≠ 0) :
    (Sched.settle s now (DecodeOutcome.found b)).callbacks =
        CallbackCall.success b.rawValue
            { x :=
                min (min b.cornerPoints.p1.x b.cornerPoints.p2.x)
                    (min b.cornerPoints.p3.x b.cornerPoints.p4.x) +
                  s.scanArea.x,
              y :=
                min (min b.cornerPoints.p1.y b.cornerPoints.p2.y)
                    (min b.cornerPoints.p3.y b.cornerPoints.p4.y) +
                  s.scanArea.y,
              width :=
                max (max b.cornerPoints.p1.x b.cornerPoints.p2.x)
                    (max b.cornerPoints.p3.x b.cornerPoints.p4.x) -
                  min (min b.cornerPoints.p1.x b.cornerPoints.p2.x)
                    (min b.cornerPoints.p3.x b.cornerPoints.p4.x),
              height :=
                max (max b.cornerPoints.p1.y b.cornerPoints.p2.y)
                    (max b.cornerPoints.p3.y b.cornerPoints.p4.y) -
                  min (min b.cornerPoints.p1.y b.cornerPoints.p2.y)
                    (min b.cornerPoints.p3.y b.cornerPoints.p4.y) } ::
          s.callbacks ∧
      detectedArea ⟨⟨10, 10⟩, ⟨50, 10⟩, ⟨50, 50⟩, ⟨10, 50⟩⟩
          { x := 100, y := 100, width := 320, height := 320 } =
        { x := 110, y := 110, width := 40, height := 40 } := by
  constructor
  · unfold Sched.settle
    rw [if_neg hin]
    unfold Sched.settleFin
    split_ifs <;> simp [Sched.settleBody, detectedArea]
  · ext <;> norm_num [detectedArea, min_def, max_def]

/-- C9 witness: the spec's concrete scenario, with raw value `ABC123`. -/
theorem success_callback_bounding_box_witness :
    ((⟨0, true, false, true, false, false, ⟨100, 100, 320, 320⟩, 24, 640, 480,
          false, 1, [42], []⟩ : SchedState).inFlight ≠ 0) ∧
      (Sched.settle
          ⟨0, true, false, true, false, false, ⟨100, 100, 320, 320⟩, 24, 640, 480,
            false, 1, [42], []⟩ 43
          (DecodeOutcome.found
            ⟨"ABC123", "qr_code",
              ⟨⟨10, 10⟩, ⟨50, 10⟩, ⟨50, 50⟩, ⟨10, 50⟩⟩⟩)).callbacks =
        CallbackCall.success "ABC123"
            { x := min (min (10 : ℚ) 50) (min 50 10) + 100,
              y := min (min (10 : ℚ) 10) (min 50 50) + 100,
              width :=
                max (max (10 : ℚ) 50) (max 50 10) - min (min (10 : ℚ) 50) (min 50 10),
              height :=
                max (max (10 : ℚ) 10) (max 50 50) -
                  min (min (10 : ℚ) 10) (min 50 50) } ::
          [] := by
  refine ⟨by norm_num, ?_⟩
  exact (success_callback_bounding_box
      ⟨0, true, false, true, false, false, ⟨100, 100, 320, 320⟩, 24, 640, 480,
        false, 1, [42], []⟩ 43
      ⟨"ABC123", "qr_code", ⟨⟨10, 10⟩, ⟨50, 10⟩, ⟨50, 50⟩, ⟨10, 50⟩⟩⟩
      (by norm_num)).1

namespace Chan

/-- The correlation id of `create-worker.ts`:
`performance.now()` and the random base-36 suffix joined by a dash. -/
def mkUuid (nowPart randPart : String) : String :=
  nowPart ++ "-" ++ randPart

/-- The outcome of one `decode(imageData)` promise. -/
inductive CallStatus where
  | pending
  | resolved (data : Option Barcode)
  | rejectedDecodeTimeout
  deriving DecidableEq, Repr

/-- The observable state of one outstanding `decode` call of
`create-worker.ts` (lines 121-154): its correlation id, the promise
status, whether its `message` listener is registered on the worker and
whether its timeout timer is still armed. -/
structure DecodeCall where
  uuid : String
  status : CallStatus
  listenerOn : Bool
  timerOn : Bool
  deriving DecidableEq, Repr

/-- State of a `decode` call right after the payload is posted: promise
pending, response listener registered, decode-timeout timer armed. -/
def post (uuid : String) : DecodeCall :=
  { uuid := uuid, status := CallStatus.pending, listenerOn := true,
    timerOn := true }

/-- An event the call can observe: a worker message of some type and
correlation id carrying a possibly-null symbol, or the decode-timeout
timer firing. -/
inductive Event where
  | message (ty : String) (uuid : String) (data : Option Barcode)
  | timeoutFire
  deriving DecidableEq, Repr

/-- One event against one call, per `handleMessage` and the `setTimeout`
callback of `decode`: a removed listener sees nothing; a message of the
wrong type or with a foreign correlation id is ignored; a matching
message clears the timer, removes the listener and resolves; the timer,
if still armed, removes the listener and rejects with `DecodeTimeout`. -/
def step (c : DecodeCall) : Event → DecodeCall
  | Event.message ty uuid data =>
      if c.listenerOn = false then c
      else if ty ≠ "decode" ∨ uuid ≠ c.uuid then c
      else
        { c with status := CallStatus.resolved data, listenerOn := false,
                 timerOn := false }
  | Event.timeoutFire =>
      if c.timerOn = false then c
      else
        { c with status := CallStatus.rejectedDecodeTimeout,
                 listenerOn := false, timerOn := false }

/-- Run a call against a list of events. -/
def run (c : DecodeCall) : List Event → DecodeCall
  | [] => c
  | e :: rest => run (step c e) rest

/-- Once not pending, the listener and the timer are gone. -/
def Settled (c : DecodeCall) : Prop :=
  c.status ≠ CallStatus.pending → c.listenerOn = false ∧ c.timerOn = false

theorem settled_step (c : DecodeCall) (e : Event) (h : Settled c) :
    Settled (step c e) := by
  cases e with
  | message ty uuid data =>
      simp only [step]
      split_ifs with h1 h2
      · exact h
      · exact h
      · exact fun _ => ⟨rfl, rfl⟩
  | timeoutFire =>
      simp only [step]
      split_ifs with h1
      · exact h
      · exact fun _ => ⟨rfl, rfl⟩

theorem settled_run (tr : List Event) :
    ∀ c : DecodeCall, Settled c → Settled (run c tr) := by
  induction tr with
  | nil => exact fun c h => h
  | cons e rest ih => exact fun c h => ih (step c e) (settled_step c e h)

end Chan

/-- C6: for one `decode` call with its fresh correlation id: a `decode`
response carrying the matching id resolves the promise with its payload
(possibly null) and deregisters the listener; the decode-timeout firing
while pending rejects with `DecodeTimeout` and deregisters the listener;
a message of a foreign type or correlation id changes nothing; a fired
timer after a match is a no-op; and on every completion path of any
event interleaving the listener is deregistered. -/
theorem decode_call_correlation (nowPart randPart ty fuuid : String)
    (d fd : Option Barcode) (c : Chan.DecodeCall)
    (hne : ty ≠ "decode" ∨ fuuid ≠ c.uuid) :
    Chan.step (Chan.post (Chan.mkUuid nowPart randPart))
        (Chan.Event.message "decode" (Chan.mkUuid nowPart randPart) d) =
      { uuid := Chan.mkUuid nowPart randPart,
        status := Chan.CallStatus.resolved d, listenerOn := false,
        timerOn := false } ∧
      Chan.step (Chan.post (Chan.mkUuid nowPart randPart)) Chan.Event.timeoutFire =
        { uuid := Chan.mkUuid nowPart randPart,
          status := Chan.CallStatus.rejectedDecodeTimeout, listenerOn := false,
          timerOn := false } ∧
      Chan.step c (Chan.Event.message ty fuuid fd) = c ∧
      (c.timerOn = false → Chan.step c Chan.Event.timeoutFire = c) ∧
      ∀ tr : List Chan.Event,
        (Chan.run (Chan.post (Chan.mkUuid nowPart randPart)) tr).status ≠
            Chan.CallStatus.pending →
          (Chan.run (Chan.post (Chan.mkUuid nowPart randPart)) tr).listenerOn =
            false := by
  refine ⟨?_, ?_, ?_, ?_, ?_⟩
  · simp only [Chan.step]
    rw [if_neg (by simp [Chan.post]), if_neg (by simp [Chan.post])]
    rfl
  · simp only [Chan.step]
    rw [if_neg (by simp [Chan.post])]
    rfl
  · simp only [Chan.step]
    split_ifs with h1
    · rfl
    · rfl
  · intro ht
    simp only [Chan.step]
    rw [if_pos ht]
  · intro tr
    exact fun h =>
      (Chan.settled_run tr (Chan.post (Chan.mkUuid nowPart randPart))
          (fun hp => absurd rfl hp) h).1

/-- C6 witness: concrete correlation ids and a concrete foreign
message. -/
theorem decode_call_correlation_witness :
    (("3", "z9") ≠ ("", "") ∨ True) ∧
      Chan.step (Chan.post (Chan.mkUuid "3" "z9"))
          (Chan.Event.message "decode" (Chan.mkUuid "3" "z9") none) =
        { uuid := Chan.mkUuid "3" "z9", status := Chan.CallStatus.resolved none,
          listenerOn := false, timerOn := false } ∧
      Chan.step (Chan.post (Chan.mkUuid "3" "z9"))
          (Chan.Event.message "init" "7-ab" none) =
        Chan.post (Chan.mkUuid "3" "z9") := by
  have h :=
    decode_call_correlation "3" "z9" "init" "7-ab" none none
      (Chan.post (Chan.mkUuid "3" "z9")) (Or.inl (by decide))
  exact ⟨Or.inr trivial, h.1, h.2.2.1⟩

namespace Life

/-- Requested camera facing mode of `start()`. -/
inductive Facing where
  | environment
  | user
  deriving DecidableEq, Repr

/-- Lifecycle hooks fired by `start`/`pause`/`stop` (newest first in the
log). -/
inductive HookTag where
  | onBeforeStart
  | onStart
  | onBeforePause
  | onPause
  | onBeforeStop
  | onStop
  deriving DecidableEq, Repr

/-- Lifecycle-controller state of `create-barcode-scanner.ts`:
`hasStream` models `video.srcObject instanceof MediaStream`, `isPlaying`
models active playback of the attached stream, `mirrored` models
`video.style.transform = scaleX(-1)`, and the ghost fields count
`getUserMedia` acquisitions, record whether `handleDecode` has launched a
live frame-scheduler chain, and log fired hooks. -/
structure LifeState where
  hasStream : Bool
  isPlaying : Bool
  isVideoActive : Bool
  isVideoPaused : Bool
  isDestroyed : Bool
  workerTerminated : Bool
  mirrored : Bool
  scanArea : ScanArea
  videoWidth : ℚ
  videoHeight : ℚ
  acquisitions : ℕ
  schedulerLaunched : Bool
  hooks : List HookTag
  deriving DecidableEq, Repr

/-- State at construction: no stream, inactive, scan area from the
default `getScanArea`. -/
def init (videoWidth videoHeight : ℚ) : LifeState :=
  { hasStream := false, isPlaying := false, isVideoActive := false,
    isVideoPaused := false, isDestroyed := false, workerTerminated := false,
    mirrored := false, scanArea := getScanArea videoWidth videoHeight,
    videoWidth := videoWidth, videoHeight := videoHeight, acquisitions := 0,
    schedulerLaunched := false, hooks := [] }

/-- `start()` (`create-barcode-scanner.ts`, lines 245-292): fire
`onBeforeStart`, check camera access (`granted`), return early if a
stream is already attached, otherwise acquire a stream, play, mark
active, recompute the scan area, set the mirroring transform exactly for
the `user` facing mode, fire `onStart` and launch `handleDecode`. -/
def start (s : LifeState) (granted : Bool) (facingMode : Facing) : LifeState :=
  if granted = false then { s with hooks := HookTag.onBeforeStart :: s.hooks }
  else if s.hasStream = true then
    { s with hooks := HookTag.onBeforeStart :: s.hooks }
  else
    { s with hasStream := true,
             acquisitions := s.acquisitions + 1,
             isPlaying := true,
             isVideoActive := true,
             isVideoPaused := false,
             scanArea := getScanArea s.videoWidth s.videoHeight,
             mirrored := (match facingMode with
               | Facing.user => true
               | Facing.environment => false),
             schedulerLaunched := true,
             hooks := HookTag.onStart :: HookTag.onBeforeStart :: s.hooks }

/-- `pause()` (lines 224-243): no-op unless actively scanning; stops and
detaches the media tracks (ending playback) and marks paused.  The
active flag and the scheduler chain are left untouched. -/
def pause (s : LifeState) : LifeState :=
  if s.isVideoActive = false ∨ s.isVideoPaused = true ∨ s.isDestroyed = true then s
  else
    { s with hasStream := false, isPlaying := false, isVideoPaused := true,
             hooks := HookTag.onPause :: HookTag.onBeforePause :: s.hooks }

/-- `stop()` (lines 294-315): no-op unless active; detaches the tracks,
resets the active/paused flags and clears the poster.  The scheduler
chain exits at its next tick's terminal check. -/
def stop (s : LifeState) : LifeState :=
  if s.isVideoActive = false ∨ s.isDestroyed = true then s
  else
    { s with hasStream := false, isPlaying := false, isVideoActive := false,
             isVideoPaused := false, schedulerLaunched := false,
             hooks := HookTag.onStop :: HookTag.onBeforeStop :: s.hooks }

/-- `destroy()` (lines 212-222): no-op if already destroyed; otherwise
runs `stop`, terminates the worker and marks destroyed. -/
def destroy (s : LifeState) : LifeState :=
  if s.isDestroyed = true then s
  else { stop s with isDestroyed := true, workerTerminated := true }

/-- A lifecycle call issued by the caller. -/
inductive Event where
  | startCall (granted : Bool) (facingMode : Facing)
  | pauseCall
  | stopCall
  | destroyCall
  deriving DecidableEq, Repr

/-- Dispatch one lifecycle call. -/
def step (s : LifeState) : Event → LifeState
  | Event.startCall granted facingMode => start s granted facingMode
  | Event.pauseCall => pause s
  | Event.stopCall => stop s
  | Event.destroyCall => destroy s

/-- Run a sequence of lifecycle calls. -/
def run (s : LifeState) : List Event → LifeState
  | [] => s
  | e :: rest => run (step s e) rest

/-- Whenever a stream is attached, the scanner is active, playback is
running and a frame-scheduler chain is live: the only path attaching a
stream is the full `start` path, and `pause`/`stop` detach it. -/
def StreamInv (s : LifeState) : Prop :=
  s.hasStream = true →
    s.isVideoActive = true ∧ s.isPlaying = true ∧ s.schedulerLaunched = true

theorem streamInv_step (s : LifeState) (e : Event) (h : StreamInv s) :
    StreamInv (step s e) := by
  cases e with
  | startCall granted facingMode =>
      simp only [step]
      unfold start
      split_ifs with h1 h2
      · exact fun hs => h (by simpa using hs)
      · exact fun hs => h (by simpa using hs)
      · exact fun _ => ⟨rfl, rfl, rfl⟩
  | pauseCall =>
      simp only [step]
      unfold pause
      split_ifs with h1
      · exact h
      · intro hs
        simp at hs
  | stopCall =>
      simp only [step]
      unfold stop
      split_ifs with h1
      · exact h
      · intro hs
        simp at hs
  | destroyCall =>
      simp only [step]
      unfold destroy stop
      split_ifs with h1 h2
      · exact h
      · intro hs
        have hh := h (by simpa using hs)
        simp only [hh.1] at h2
        rcases h2 with h2 | h2
        · exact absurd h2 (by simp)
        · exact absurd h2 h1
      · intro hs
        simp at hs
  
theorem streamInv_run (tr : List Event) :
    ∀ s : LifeState, StreamInv s → StreamInv (run s tr) := by
  induction tr with
  | nil => exact fun s h => h
  | cons e rest ih => exact fun s h => ih (step s e) (streamInv_step s e h)

end Life

/-- C8: calling `start` with camera access granted on a reachable
non-destroyed scanner: if a stream is already attached it returns after
firing only `onBeforeStart` — no new stream is acquired and the scanner
is still active, playing, with a live frame-scheduler chain; otherwise
it acquires exactly one new stream, starts playback, marks the scanner
active and unpaused, sets the mirroring transform exactly for the `user`
facing mode, recomputes the scan area, fires `onBeforeStart` then
`onStart`, and launches the frame scheduler. -/
theorem start_resumes_or_acquires (videoWidth videoHeight : ℚ)
    (tr : List Life.Event) (facingMode : Life.Facing)
    (hnd : (Life.run (Life.init videoWidth videoHeight) tr).isDestroyed = false) :
    ((Life.run (Life.init videoWidth videoHeight) tr).hasStream = true →
        Life.start (Life.run (Life.init videoWidth videoHeight) tr) true
            facingMode =
          { Life.run (Life.init videoWidth videoHeight) tr with
              hooks :=
                Life.HookTag.onBeforeStart ::
                  (Life.run (Life.init videoWidth videoHeight) tr).hooks } ∧
          (Life.start (Life.run (Life.init videoWidth videoHeight) tr) true
              facingMode).isVideoActive = true ∧
          (Life.start (Life.run (Life.init videoWidth videoHeight) tr) true
              facingMode).isPlaying = true ∧
          (Life.start (Life.run (Life.init videoWidth videoHeight) tr) true
              facingMode).schedulerLaunched = true) ∧
      ((Life.run (Life.init videoWidth videoHeight) tr).hasStream = false →
        (Life.start (Life.run (Life.init videoWidth videoHeight) tr) true
              facingMode).acquisitions =
            (Life.run (Life.init videoWidth videoHeight) tr).acquisitions + 1 ∧
          (Life.start (Life.run (Life.init videoWidth videoHeight) tr) true
              facingMode).isPlaying = true ∧
          (Life.start (Life.run (Life.init videoWidth videoHeight) tr) true
              facingMode).isVideoActive = true ∧
          (Life.start (Life.run (Life.init videoWidth videoHeight) tr) true
              facingMode).isVideoPaused = false ∧
          ((Life.start (Life.run (Life.init videoWidth videoHeight) tr) true
                facingMode).mirrored = true ↔
            facingMode = Life.Facing.user) ∧
          (Life.start (Life.run (Life.init videoWidth videoHeight) tr) true
              facingMode).scanArea =
            getScanArea
              (Life.run (Life.init videoWidth videoHeight) tr).videoWidth
              (Life.run (Life.init videoWidth videoHeight) tr).videoHeight ∧
          (Life.start (Life.run (Life.init videoWidth videoHeight) tr) true
              facingMode).hooks =
            Life.HookTag.onStart ::
              Life.HookTag.onBeforeStart ::
                (Life.run (Life.init videoWidth videoHeight) tr).hooks ∧
          (Life.start (Life.run (Life.init videoWidth videoHeight) tr) true
              facingMode).schedulerLaunched = true) := by
  have hInv :
      Life.StreamInv (Life.run (Life.init videoWidth videoHeight) tr) :=
    Life.streamInv_run tr _ (fun hs => by simp [Life.init] at hs)
  constructor
  · intro hs
    obtain ⟨ha, hp, hl⟩ := hInv hs
    unfold Life.start
    rw [if_neg (by simp), if_pos hs]
    exact ⟨rfl, by simpa using ha, by simpa using hp, by simpa using hl⟩
  · intro hs
    unfold Life.start
    rw [if_neg (by simp), if_neg (by simp [hs])]
    refine ⟨rfl, rfl, rfl, rfl, ?_, rfl, rfl, rfl⟩
    cases facingMode <;> simp

/-- C8 witness: resume-in-place after a full start, and acquisition from
the freshly constructed scanner. -/
theorem start_resumes_or_acquires_witness :
    ((Life.run (Life.init 640 480)
            [Life.Event.startCall true Life.Facing.user]).isDestroyed = false ∧
        (Life.run (Life.init 640 480)
            [Life.Event.startCall true Life.Facing.user]).hasStream = true) ∧
      (Life.start
          (Life.run (Life.init 640 480)
            [Life.Event.startCall true Life.Facing.user])
          true Life.Facing.user).isVideoActive = true ∧
      (Life.run (Life.init 640 480) []).hasStream = false ∧
      (Life.start (Life.run (Life.init 640 480) []) true
          Life.Facing.environment).acquisitions =
        (Life.run (Life.init 640 480) []).acquisitions + 1 := by
  have h1 :=
    start_resumes_or_acquires 640 480 [Life.Event.startCall true Life.Facing.user]
      Life.Facing.user
      (by simp [Life.run, Life.step, Life.start, Life.init])
  have h2 :=
    start_resumes_or_acquires 640 480 [] Life.Facing.environment rfl
  refine ⟨⟨?_, ?_⟩, ?_, rfl, ?_⟩
  · simp [Life.run, Life.step, Life.start, Life.init]
  · simp [Life.run, Life.step, Life.start, Life.init]
  · exact (h1.1 (by simp [Life.run, Life.step, Life.start, Life.init])).2.1
  · exact (h2.2 rfl).1

namespace WorkerM

/-- A `decode` request message received by the worker
(`worker.ts` / the decode listener): type tag, optional pixel payload
and correlation id.  The pixel type is abstract. -/
structure DecodeRequestMsg (Img : Type) where
  ty : String
  data : Option Img
  uuid : String

/-- A `decode` response message posted back by the worker: type tag,
at most one detected symbol and the echoed correlation id. -/
structure DecodeResponseMsg where
  ty : String
  data : Option Barcode
  uuid : String
  deriving DecidableEq, Repr

/-- `handleDecode` of `worker.ts` (lines 66-92): a non-`decode` message
is ignored; otherwise exactly one response is posted, initialised with
`data = null` and the request's uuid.  The detector — `none` models the
uninitialised `barcodeDetector` — may throw (`Except.error`), in which
case the error is caught and the null payload is posted; a successful
detection posts the first element of the result list, if any. -/
def handleDecode {Img : Type}
    (barcodeDetector : Option (Img → Except String (List Barcode)))
    (msg : DecodeRequestMsg Img) : List DecodeResponseMsg :=
  if msg.ty ≠ "decode" then []
  else
    [{ ty := "decode",
       data :=
         match barcodeDetector, msg.data with
         | none, _ => none
         | some _, none => none
         | some detect, some img =>
             match detect img with
             | Except.error _ => none
             | Except.ok barcodes => barcodes.head?,
       uuid := msg.uuid }]

end WorkerM

/-- C10: for every message of type `decode` the worker posts back exactly
one `decode` response echoing the request's uuid; when the detector is
uninitialised, the payload data is absent, or detection throws, that
response carries `data = null` — the handler never propagates an error,
so a decode request goes unanswered only if the worker itself is dead. -/
theorem worker_decode_always_responds {Img : Type}
    (barcodeDetector : Option (Img → Except String (List Barcode)))
    (msg : WorkerM.DecodeRequestMsg Img) (hty : msg.ty = "decode") :
    (∃ d, WorkerM.handleDecode barcodeDetector msg =
        [{ ty := "decode", data := d, uuid := msg.uuid }]) ∧
      (barcodeDetector = none →
        WorkerM.handleDecode barcodeDetector msg =
          [{ ty := "decode", data := none, uuid := msg.uuid }]) ∧
      (msg.data = none →
        WorkerM.handleDecode barcodeDetector msg =
          [{ ty := "decode", data := none, uuid := msg.uuid }]) ∧
      ∀ (detect : Img → Except String (List Barcode)) (img : Img) (e : String),
        barcodeDetector = some detect → msg.data = some img →
        detect img = Except.error e →
        WorkerM.handleDecode barcodeDetector msg =
          [{ ty := "decode", data := none, uuid := msg.uuid }] := by
  unfold WorkerM.handleDecode
  rw [if_neg (by simp [hty])]
  refine ⟨⟨_, rfl⟩, ?_, ?_, ?_⟩
  · intro hd
    subst hd
    rfl
  · intro hd
    rw [hd]
    cases barcodeDetector <;> rfl
  · intro detect img e hdet hdata herr
    subst hdet
    rw [hdata]
    simp [herr]

/-- C10 witness: an uninitialised detector still answers a concrete
`decode` request with a null payload. -/
theorem worker_decode_always_responds_witness :
    ((⟨"decode", none, "7-ab"⟩ : WorkerM.DecodeRequestMsg ℕ).ty = "decode") ∧
      @WorkerM.handleDecode ℕ none ⟨"decode", none, "7-ab"⟩ =
        [{ ty := "decode", data := none, uuid := "7-ab" }] := by
  refine ⟨rfl, ?_⟩
  exact (@worker_decode_always_responds ℕ none
      ⟨"decode", none, "7-ab"⟩ rfl).2.1 rfl
